import Mathlib

/-!
Verification of the nvlist marshaller in src/libzfs_core/_nvlist.py.

The module converts between a Python dictionary (string keys, typed values)
and a C nvlist_t container.  We embed

* the Python value domain (`PyVal` / `PyList` / `PyDict`, mirroring the
  "Format" documented at the top of the source file),
* the nvlist container as a sequence of (name, typed payload) entries
  (`NvValue` / `NvList` / `NvArr`), with the payload shapes and DATA_TYPE_*
  tag numbers of libnvpair,
* the functions `_dict_to_nvlist`, `_nvlist_add_array`, `_nvlist_to_dict`,
  `_type_info`, `_prop_name_to_type_str` and the context manager
  `nvlist_out` from the source.

The C libnvpair primitives (nvlist_alloc, nvlist_add_*, nvpair_value_*) are
external to the repository; they are idealised as exact stores/loads of the
entry payloads, with allocation always succeeding.  Every encode function
additionally returns the number of container/buffer allocations it
performed (`nvlist_alloc` calls and per-element `ffi.new` buffers), so that
"raised before any allocation" is an observable statement.

The class `NvInteger` (libzfs_core/ctypes.py) is part of the repository but
is not under src/.  Modelled from the spec: per section 3 it is an
"explicitly width- and signedness-tagged integer", a single wrapper class
carrying a width tag (`suffix()`) and a value (`val`), distinct from the
plain integer variant.  Per section 4.2 an explicit width tag must take
precedence over the key-name table; since `_dict_to_nvlist` tests
`isinstance(v, numbers.Integral)` (line 229) before `isinstance(v,
NvInteger)` (line 233), that is only realisable if `NvInteger` does not
register as `numbers.Integral`; it is modelled accordingly, so
`isinstance(v, numbers.Integral)` holds exactly for Python `int` and
`bool` values.
-/

set_option maxHeartbeats 1000000

namespace PyZfsNvlist

/-- Width/signedness tags of `NvInteger` values: the C types listed in the
source docstring that the wire format stores as integer entries (uchar_t is
the distinct "byte" tag of section 3). -/
inductive IntSuffix where
  | byte
  | int8
  | uint8
  | int16
  | uint16
  | int32
  | uint32
  | int64
  | uint64
deriving DecidableEq

/- The Python value domain of the marshaller, from the "Format" block of
the source docstring: None, bool, int, byte string, NvInteger, list,
nested dict. -/
mutual
inductive PyVal where
  | pynone : PyVal
  | pybool (b : Bool) : PyVal
  | pyint (n : Int) : PyVal
  | pystr (s : String) : PyVal
  | nvint (w : IntSuffix) (v : Int) : PyVal
  | pylist (a : PyList) : PyVal
  | pydict (d : PyDict) : PyVal

inductive PyList where
  | nil : PyList
  | cons (v : PyVal) (rest : PyList) : PyList

inductive PyDict where
  | nil : PyDict
  | cons (k : String) (v : PyVal) (rest : PyDict) : PyDict
end

/- Entries of an nvlist container: each entry is a (name, payload) pair
whose payload shape determines its DATA_TYPE_* tag.  `unknown` stands for
an entry whose tag is outside the set handled by `_type_info`. -/
mutual
inductive NvValue where
  | boolean : NvValue
  | booleanValue (b : Bool) : NvValue
  | intVal (w : IntSuffix) (n : Int) : NvValue
  | strVal (s : String) : NvValue
  | nvl (es : NvList) : NvValue
  | booleanArray (bs : List Bool) : NvValue
  | intArray (w : IntSuffix) (ns : List Int) : NvValue
  | strArray (ss : List String) : NvValue
  | nvlArray (ls : NvArr) : NvValue
  | unknown (typeid : Nat) : NvValue

inductive NvList where
  | nil : NvList
  | cons (name : String) (v : NvValue) (rest : NvList) : NvList

inductive NvArr where
  | nil : NvArr
  | cons (es : NvList) (rest : NvArr) : NvArr
end

/-- Python exception values raised by the marshaller. -/
inductive PyErr where
  | typeError (msg : String)
  | memoryError (msg : String)
  | indexError (msg : String)
  | keyError (typeid : Nat)
  | runtimeError (msg : String)
deriving DecidableEq

/-- Python `type(v).__name__` for the modelled value domain. -/
def typeName : PyVal → String
  | .pynone => "NoneType"
  | .pybool _ => "bool"
  | .pyint _ => "int"
  | .pystr _ => "str"
  | .nvint _ _ => "NvInteger"
  | .pylist _ => "list"
  | .pydict _ => "dict"

/-- Python `type(a) is type(b)` for the modelled value domain. -/
def sameType (a b : PyVal) : Bool :=
  typeName a == typeName b

/-- Python `isinstance(v, numbers.Integral)`: true for `int` and `bool`
(`bool` is a subclass of `int`).  `NvInteger` does not register as
Integral (see the module comment: forced by the dispatch order of
`_dict_to_nvlist` together with the spec's precedence rule, section 4.2). -/
def isIntegral : PyVal → Bool
  | .pybool _ => true
  | .pyint _ => true
  | _ => false

/-- Python `isinstance(v, dict)`. -/
def isDict : PyVal → Bool
  | .pydict _ => true
  | _ => false

/-- DATA_TYPE_* tag numbers of libnvpair (sys/nvpair.h) for each payload
shape; an `unknown` entry carries its tag directly. -/
def typeidOf : NvValue → Nat
  | .boolean => 1
  | .booleanValue _ => 21
  | .intVal .byte _ => 2
  | .intVal .int8 _ => 22
  | .intVal .uint8 _ => 23
  | .intVal .int16 _ => 3
  | .intVal .uint16 _ => 4
  | .intVal .int32 _ => 5
  | .intVal .uint32 _ => 6
  | .intVal .int64 _ => 7
  | .intVal .uint64 _ => 8
  | .strVal _ => 9
  | .nvl _ => 19
  | .booleanArray _ => 24
  | .intArray .byte _ => 10
  | .intArray .int8 _ => 25
  | .intArray .uint8 _ => 26
  | .intArray .int16 _ => 11
  | .intArray .uint16 _ => 12
  | .intArray .int32 _ => 13
  | .intArray .uint32 _ => 14
  | .intArray .int64 _ => 15
  | .intArray .uint64 _ => 16
  | .strArray _ => 17
  | .nvlArray _ => 20
  | .unknown t => t

/-- The `_type_info` lookup table (source lines 89-116): maps a decode-time
tag to `some suffix` (with `some none` for the suffix-less plain-boolean
tag) and is undefined (`none`, a Python KeyError) on every tag outside the
fixed set of 25 entries. -/
def _type_info : Nat → Option (Option String)
  | 1 => some none                       -- DATA_TYPE_BOOLEAN
  | 21 => some (some "boolean_value")    -- DATA_TYPE_BOOLEAN_VALUE
  | 2 => some (some "byte")              -- DATA_TYPE_BYTE
  | 22 => some (some "int8")             -- DATA_TYPE_INT8
  | 23 => some (some "uint8")            -- DATA_TYPE_UINT8
  | 3 => some (some "int16")             -- DATA_TYPE_INT16
  | 4 => some (some "uint16")            -- DATA_TYPE_UINT16
  | 5 => some (some "int32")             -- DATA_TYPE_INT32
  | 6 => some (some "uint32")            -- DATA_TYPE_UINT32
  | 7 => some (some "int64")             -- DATA_TYPE_INT64
  | 8 => some (some "uint64")            -- DATA_TYPE_UINT64
  | 9 => some (some "string")            -- DATA_TYPE_STRING
  | 19 => some (some "nvlist")           -- DATA_TYPE_NVLIST
  | 24 => some (some "boolean_array")    -- DATA_TYPE_BOOLEAN_ARRAY
  | 10 => some (some "byte_array")       -- DATA_TYPE_BYTE_ARRAY
  | 25 => some (some "int8_array")       -- DATA_TYPE_INT8_ARRAY
  | 26 => some (some "uint8_array")      -- DATA_TYPE_UINT8_ARRAY
  | 11 => some (some "int16_array")      -- DATA_TYPE_INT16_ARRAY
  | 12 => some (some "uint16_array")     -- DATA_TYPE_UINT16_ARRAY
  | 13 => some (some "int32_array")      -- DATA_TYPE_INT32_ARRAY
  | 14 => some (some "uint32_array")     -- DATA_TYPE_UINT32_ARRAY
  | 15 => some (some "int64_array")      -- DATA_TYPE_INT64_ARRAY
  | 16 => some (some "uint64_array")     -- DATA_TYPE_UINT64_ARRAY
  | 17 => some (some "string_array")     -- DATA_TYPE_STRING_ARRAY
  | 20 => some (some "nvlist_array")     -- DATA_TYPE_NVLIST_ARRAY
  | _ => none

/-- The key-name-to-width table `_prop_name_to_type_str` (source lines
119-124); only plain integer properties consult it. -/
def _prop_name_to_type_str : List (String × IntSuffix) :=
  [("rewind-request", .uint32),
   ("type", .uint32),
   ("N_MORE_ERRORS", .int32),
   ("pool_context", .int32)]

/-- `_prop_name_to_type_str.get(key, "uint64")` (source lines 162, 230). -/
def keySuffix (k : String) : IntSuffix :=
  match _prop_name_to_type_str.lookup k with
  | some w => w
  | none => .uint64

/-- The element validation loop of `_nvlist_add_array` (source lines
131-139): compares each element after the first against the specimen,
letting any two `numbers.Integral` values through, and returns the pair of
type names of the first offending element, if any. -/
def checkArray (specimen : PyVal) : PyList → Option (String × String)
  | .nil => none
  | .cons x rest =>
    if isIntegral specimen && isIntegral x then
      checkArray specimen rest
    else if !(sameType x specimen) then
      some (typeName specimen, typeName x)
    else
      checkArray specimen rest

/-- Conversion of one element to a C boolean_t when packing a
boolean-specimen array (source line 160). -/
def asBoolT : PyVal → Bool
  | .pybool b => b
  | .pyint n => n != 0
  | .nvint _ n => n != 0
  | _ => false

def asBoolList : PyList → List Bool
  | .nil => []
  | .cons v rest => asBoolT v :: asBoolList rest

/-- Conversion of one `numbers.Integral` element to the C integer payload
when packing an integer-specimen array (source line 164). -/
def asCInt : PyVal → Int
  | .pyint n => n
  | .pybool b => if b then 1 else 0
  | .nvint _ n => n
  | _ => 0

def asIntList : PyList → List Int
  | .nil => []
  | .cons v rest => asCInt v :: asIntList rest

/-- The `item.val` access when packing an NvInteger-specimen array (source
line 171). -/
def asVal : PyVal → Int
  | .nvint _ n => n
  | .pyint n => n
  | _ => 0

def asValList : PyList → List Int
  | .nil => []
  | .cons v rest => asVal v :: asValList rest

/-- String payloads of a string-specimen array (source line 157). -/
def asStr : PyVal → String
  | .pystr s => s
  | _ => ""

def asStrList : PyList → List String
  | .nil => []
  | .cons v rest => asStr v :: asStrList rest

def listLen : PyList → Nat
  | .nil => 0
  | .cons _ rest => listLen rest + 1

/-- Python `key in props` for the modelled dictionary. -/
def dHasKey : PyDict → String → Bool
  | .nil, _ => false
  | .cons k _ rest, key => k == key || dHasKey rest key

/-- Python `props[name] = val`: replaces in place if the key is present,
appends otherwise (insertion order semantics of a Python dict). -/
def dictSet : PyDict → String → PyVal → PyDict
  | .nil, k, v => .cons k v .nil
  | .cons k' v' rest, k, v =>
    if k' == k then .cons k' v rest else .cons k' v' (dictSet rest k v)

def dAppend : PyDict → PyDict → PyDict
  | .nil, e => e
  | .cons k v rest, e => .cons k v (dAppend rest e)

def nvAppend : NvList → NvList → NvList
  | .nil, e => e
  | .cons n v rest, e => .cons n v (nvAppend rest e)

/- Encoding.  Each function returns the produced entries/payload together
with the number of allocations it performed; a raised exception carries the
number of allocations performed before the raise.  In the idealised
libnvpair environment `nvlist_alloc` and the `nvlist_add_*` mutators always
succeed, so the `MemoryError` branches of the source (lines 54-55, 148-149,
175-176, 239-240) are not taken.  Keys are typed as Lean strings, which
renders the key-type check of source line 215 vacuous. -/
mutual

/-- Embeds `_dict_to_nvlist(props, nvlist)` (source lines 213-240): walks
the dictionary in insertion order and appends one entry per pair to the
(freshly allocated) target nvlist; the entries appended are returned. -/
def _dict_to_nvlist : PyDict → Except (PyErr × Nat) (NvList × Nat)
  | .nil => .ok (.nil, 0)
  | .cons k v rest =>
    match encodeValue k v with
    | .error e => .error e
    | .ok (nv, n) =>
      match _dict_to_nvlist rest with
      | .error (e, m) => .error (e, n + m)
      | .ok (es, m) => .ok (.cons k nv es, n + m)

/-- The dispatch on one value in the loop body of `_dict_to_nvlist`
(source lines 218-238), branches in source order: dict (line 218, via
`nvlist_in`, which allocates one nested nvlist), list (line 221), str
(line 223), bool (line 225), None (line 227), `numbers.Integral` (line
229, width from the key table), `NvInteger` (line 233, width from the
value's own tag).  The trailing `TypeError` branch of line 238 is
unreachable for the modelled value domain. -/
def encodeValue (k : String) : PyVal → Except (PyErr × Nat) (NvValue × Nat)
  | .pydict d =>
    match _dict_to_nvlist d with
    | .error (e, n) => .error (e, 1 + n)
    | .ok (es, n) => .ok (.nvl es, 1 + n)
  | .pylist a => _nvlist_add_array k a
  | .pystr s => .ok (.strVal s, 0)
  | .pybool b => .ok (.booleanValue b, 0)
  | .pynone => .ok (.boolean, 0)
  | .pyint n => .ok (.intVal (keySuffix k) n, 0)
  | .nvint w n => .ok (.intVal w n, 0)

/-- Embeds `_nvlist_add_array(nvlist, key, array)` (source lines 127-176).
`array[0]` on an empty list raises IndexError (line 129); the validation
loop (`checkArray`, lines 131-139) runs before any branch; dispatch on the
specimen in source order: dict (line 141, one `nvlist_alloc` per element),
str (line 154, one `ffi.new` buffer per element), bool (line 159), Integral
(line 161, width from the key table), NvInteger (line 165, width from the
specimen's tag), else TypeError (line 174). -/
def _nvlist_add_array (k : String) : PyList → Except (PyErr × Nat) (NvValue × Nat)
  | .nil => .error (.indexError "list index out of range", 0)
  | .cons specimen rest =>
    match checkArray specimen rest with
    | some (t1, t2) =>
      .error (.typeError ("Array has elements of different types: " ++ t1 ++
        " and " ++ t2), 0)
    | none =>
      match specimen with
      | .pydict d =>
        match _dict_to_nvlist d with
        | .error (e, n) => .error (e, 1 + n)
        | .ok (es, n) =>
          match encodeDictArray rest with
          | .error (e, m) => .error (e, 1 + n + m)
          | .ok (ls, m) => .ok (.nvlArray (.cons es ls), 1 + n + m)
      | .pystr s => .ok (.strArray (s :: asStrList rest), listLen rest + 1)
      | .pybool b => .ok (.booleanArray (b :: asBoolList rest), 0)
      | .pyint n => .ok (.intArray (keySuffix k) (n :: asIntList rest), 0)
      | .nvint w n => .ok (.intArray w (n :: asValList rest), 0)
      | .pynone =>
        .error (.typeError ("Unsupported value type " ++ typeName .pynone), 0)
      | .pylist a =>
        .error (.typeError ("Unsupported value type " ++ typeName (.pylist a)), 0)

/-- The per-element loop of the dict-specimen branch of
`_nvlist_add_array` (source lines 144-152): allocates one nested nvlist
per element and fills it with `_dict_to_nvlist`.  A non-mapping element
would fail inside `_dict_to_nvlist` (no `.items()`); that branch is
unreachable after the homogeneity check. -/
def encodeDictArray : PyList → Except (PyErr × Nat) (NvArr × Nat)
  | .nil => .ok (.nil, 0)
  | .cons (.pydict d) rest =>
    match _dict_to_nvlist d with
    | .error (e, n) => .error (e, 1 + n)
    | .ok (es, n) =>
      match encodeDictArray rest with
      | .error (e, m) => .error (e, 1 + n + m)
      | .ok (ls, m) => .ok (.cons es ls, 1 + n + m)
  | .cons v _ =>
    .error (.typeError ("Unsupported value type " ++ typeName v), 0)

end

/-- Rebuilds the Python list decoded from a boolean array (convert `bool`
applied per element). -/
def boolsToPyList : List Bool → PyList
  | [] => .nil
  | b :: rest => .cons (.pybool b) (boolsToPyList rest)

/-- Rebuilds the Python list decoded from an integer array (convert `int`
applied per element). -/
def intsToPyList : List Int → PyList
  | [] => .nil
  | n :: rest => .cons (.pyint n) (intsToPyList rest)

/-- Rebuilds the Python list decoded from a string array. -/
def strsToPyList : List String → PyList
  | [] => .nil
  | s :: rest => .cons (.pystr s) (strsToPyList rest)

/- Decoding. -/
mutual

/-- Embeds `_nvlist_to_dict(nvlist, props)` (source lines 179-210): walks
the entries in storage order, looks the tag up in `_type_info` (a missing
tag is a Python KeyError, modelled as `PyErr.keyError`, raised before the
entry is stored), converts the payload and stores it under the entry name.
A raised exception carries the dictionary as populated so far (the Python
function mutates `props` in place). -/
def _nvlist_to_dict : NvList → PyDict → Except (PyErr × PyDict) PyDict
  | .nil, props => .ok props
  | .cons name v rest, props =>
    if (_type_info (typeidOf v)).isSome then
      match convertNv v with
      | .error e => .error (e, props)
      | .ok pv => _nvlist_to_dict rest (dictSet props name pv)
    else
      .error (.keyError (typeidOf v), props)

/-- Conversion of one entry payload to a Python value, per the `convert`
column of `_type_info` and the array walk of source lines 189-207: a plain
boolean tag yields None (lines 200-201), integer tags of every width yield
a plain Python int, nested nvlists recurse, arrays convert per element.  A
payload whose accessor rejects it is the RuntimeError of lines 194/206. -/
def convertNv : NvValue → Except PyErr PyVal
  | .boolean => .ok .pynone
  | .booleanValue b => .ok (.pybool b)
  | .intVal _ n => .ok (.pyint n)
  | .strVal s => .ok (.pystr s)
  | .nvl es =>
    match _nvlist_to_dict es .nil with
    | .error (e, _) => .error e
    | .ok d => .ok (.pydict d)
  | .booleanArray bs => .ok (.pylist (boolsToPyList bs))
  | .intArray _ ns => .ok (.pylist (intsToPyList ns))
  | .strArray ss => .ok (.pylist (strsToPyList ss))
  | .nvlArray ls =>
    match decodeNvlArray ls with
    | .error e => .error e
    | .ok a => .ok (.pylist a)
  | .unknown _ => .error (.runtimeError "nvpair_value failed")

/-- Per-element decode of a nested-nvlist array: the Type Registry's
converter `lambda x: _nvlist_to_dict(x, {})` applied to each element
(source lines 115, 196-198). -/
def decodeNvlArray : NvArr → Except PyErr PyList
  | .nil => .ok .nil
  | .cons es rest =>
    match _nvlist_to_dict es .nil with
    | .error (e, _) => .error e
    | .ok d =>
      match decodeNvlArray rest with
      | .error e => .error e
      | .ok a => .ok (.cons (.pydict d) a)

end

/-- Outcome of the caller's with-block body in `nvlist_out`: the body
either finishes normally or raises, and by then the external producer has
either filled the container slot (`some c`) or left it NULL (`none`). -/
inductive BodyOutcome where
  | finished (slot : Option NvList)
  | raised (slot : Option NvList)

/-- Observable result of `nvlist_out`: the final contents of the
caller-supplied dictionary, the number of `nvlist_free` calls made on the
filled container, and whether an exception propagated out. -/
structure OutRes where
  props : PyDict
  frees : Nat
  propagated : Bool

/-- Embeds the context manager `nvlist_out(props)` (source lines 64-84):
the slot starts NULL; after the body, `props.clear()` and
`_nvlist_to_dict(nvlistp[0], props)` run only on normal completion (lines
78-81); the `finally` block frees the container exactly when the slot is
non-NULL (lines 82-84), on every path.  An exception raised by the body
skips the try-suite remainder, so the dictionary keeps its prior contents.
A NULL slot on normal completion decodes as an empty walk. -/
def nvlist_out (props : PyDict) : BodyOutcome → OutRes
  | .raised slot =>
    { props := props, frees := if slot.isSome then 1 else 0, propagated := true }
  | .finished none =>
    { props := .nil, frees := 0, propagated := false }
  | .finished (some c) =>
    match _nvlist_to_dict c .nil with
    | .ok d => { props := d, frees := 1, propagated := false }
    | .error (_, leftover) => { props := leftover, frees := 1, propagated := true }

/-- True when a list has an element whose Python type name is `t`. -/
def hasType : PyList → String → Bool
  | .nil, _ => false
  | .cons v rest, t => typeName v == t || hasType rest t

/-- True when every element is a plain `numbers.Integral` value. -/
def allIntegral : PyList → Bool
  | .nil => true
  | .cons v rest => isIntegral v && allIntegral rest

/- Grammar of records for which encode-then-decode is the identity: keys
unique at every level, no width-tagged integers (decode erases the tag to
a plain int), arrays non-empty and homogeneous with elements among bool,
plain int, str, dict. -/
mutual

def goodVal : PyVal → Bool
  | .pynone => true
  | .pybool _ => true
  | .pyint _ => true
  | .pystr _ => true
  | .nvint _ _ => false
  | .pylist a => goodArr a
  | .pydict d => goodDict d

def goodDict : PyDict → Bool
  | .nil => true
  | .cons k v rest => goodVal v && goodDict rest && !(dHasKey rest k)

def goodArr : PyList → Bool
  | .nil => false
  | .cons s rest => goodElem s && goodRest s rest

def goodElem : PyVal → Bool
  | .pybool _ => true
  | .pyint _ => true
  | .pystr _ => true
  | .pydict d => goodDict d
  | _ => false

def goodRest (s : PyVal) : PyList → Bool
  | .nil => true
  | .cons x r => sameType x s && goodElem x && goodRest s r

end

/-- Elements of a dict-specimen array: all dictionaries, all good. -/
def allGoodDicts : PyList → Bool
  | .nil => true
  | .cons (.pydict d) rest => goodDict d && allGoodDicts rest
  | .cons _ _ => false

/- Basic lemmas about the dictionary operations. -/

theorem dAppend_nil : (p : PyDict) → dAppend p .nil = p
  | .nil => rfl
  | .cons k v rest => by simp [dAppend, dAppend_nil rest]

theorem dAppend_assoc : (a : PyDict) → (b c : PyDict) →
    dAppend (dAppend a b) c = dAppend a (dAppend b c)
  | .nil, _, _ => rfl
  | .cons k v rest, b, c => by simp [dAppend, dAppend_assoc rest b c]

theorem dHasKey_append : (a : PyDict) → (b : PyDict) → (key : String) →
    dHasKey (dAppend a b) key = (dHasKey a key || dHasKey b key)
  | .nil, b, key => by simp [dAppend, dHasKey]
  | .cons k v rest, b, key => by
    simp [dAppend, dHasKey, dHasKey_append rest b key, Bool.or_assoc]

theorem dictSet_fresh : (p : PyDict) → (k : String) → (v : PyVal) →
    dHasKey p k = false → dictSet p k v = dAppend p (.cons k v .nil)
  | .nil, _, _, _ => rfl
  | .cons k' v' rest, k, v, h => by
    simp only [dHasKey, Bool.or_eq_false_iff] at h
    simp [dictSet, dAppend, h.1, dictSet_fresh rest k v h.2]

/- Lemmas connecting the validation loop with the grammar. -/

theorem isIntegral_typeName (v : PyVal) (h : isIntegral v = true) :
    typeName v = "int" ∨ typeName v = "bool" := by
  cases v <;> simp_all [isIntegral, typeName]

theorem checkArray_of_goodRest (s : PyVal) : (rest : PyList) →
    goodRest s rest = true → checkArray s rest = none
  | .nil, _ => rfl
  | .cons x r, h => by
    simp only [goodRest, Bool.and_eq_true] at h
    by_cases hint : (isIntegral s && isIntegral x) = true
    · simp [checkArray, hint, checkArray_of_goodRest s r h.2]
    · simp [checkArray, hint, h.1.1, checkArray_of_goodRest s r h.2]

theorem checkArray_of_allIntegral (s : PyVal) (hs : isIntegral s = true) :
    (rest : PyList) → allIntegral rest = true → checkArray s rest = none
  | .nil, _ => rfl
  | .cons x r, h => by
    simp only [allIntegral, Bool.and_eq_true] at h
    simp [checkArray, hs, h.1, checkArray_of_allIntegral s hs r h.2]

theorem typeName_is_bool (x : PyVal) (h : typeName x = "bool") :
    ∃ b, x = PyVal.pybool b := by
  cases x <;> simp_all [typeName]

theorem typeName_is_int (x : PyVal) (h : typeName x = "int") :
    ∃ n, x = PyVal.pyint n := by
  cases x <;> simp_all [typeName]

theorem typeName_is_str (x : PyVal) (h : typeName x = "str") :
    ∃ s, x = PyVal.pystr s := by
  cases x <;> simp_all [typeName]

theorem typeName_is_dict (x : PyVal) (h : typeName x = "dict") :
    ∃ d, x = PyVal.pydict d := by
  cases x <;> simp_all [typeName]

theorem typeinfo_intVal (w : IntSuffix) (n : Int) :
    (_type_info (typeidOf (.intVal w n))).isSome = true := by
  cases w <;> rfl

theorem typeinfo_intArray (w : IntSuffix) (ns : List Int) :
    (_type_info (typeidOf (.intArray w ns))).isSome = true := by
  cases w <;> rfl

/- Per-element payload round trips for the three flat array shapes. -/

theorem bools_rt (b : Bool) : (r : PyList) → goodRest (.pybool b) r = true →
    boolsToPyList (asBoolList r) = r
  | .nil, _ => rfl
  | .cons x rest, h => by
    simp only [goodRest, Bool.and_eq_true] at h
    obtain ⟨⟨hx, _⟩, hr⟩ := h
    obtain ⟨bb, rfl⟩ := typeName_is_bool x (by simpa [sameType, typeName] using hx)
    simp [asBoolList, asBoolT, boolsToPyList, bools_rt b rest hr]

theorem ints_rt (n : Int) : (r : PyList) → goodRest (.pyint n) r = true →
    intsToPyList (asIntList r) = r
  | .nil, _ => rfl
  | .cons x rest, h => by
    simp only [goodRest, Bool.and_eq_true] at h
    obtain ⟨⟨hx, _⟩, hr⟩ := h
    obtain ⟨m, rfl⟩ := typeName_is_int x (by simpa [sameType, typeName] using hx)
    simp [asIntList, asCInt, intsToPyList, ints_rt n rest hr]

theorem strs_rt (s : String) : (r : PyList) → goodRest (.pystr s) r = true →
    strsToPyList (asStrList r) = r
  | .nil, _ => rfl
  | .cons x rest, h => by
    simp only [goodRest, Bool.and_eq_true] at h
    obtain ⟨⟨hx, _⟩, hr⟩ := h
    obtain ⟨t, rfl⟩ := typeName_is_str x (by simpa [sameType, typeName] using hx)
    simp [asStrList, asStr, strsToPyList, strs_rt s rest hr]

theorem allGoodDicts_of_goodRest (d : PyDict) : (r : PyList) →
    goodRest (.pydict d) r = true → allGoodDicts r = true
  | .nil, _ => rfl
  | .cons x rest, h => by
    simp only [goodRest, Bool.and_eq_true] at h
    obtain ⟨⟨hx, hgx⟩, hr⟩ := h
    obtain ⟨dx, rfl⟩ := typeName_is_dict x (by simpa [sameType, typeName] using hx)
    simp only [goodElem] at hgx
    simp [allGoodDicts, hgx, allGoodDicts_of_goodRest d rest hr]

/- The round trip itself, by mutual recursion over the record structure. -/
mutual

theorem rt_dict : (d : PyDict) → goodDict d = true →
    ∃ es n, _dict_to_nvlist d = .ok (es, n) ∧
      ∀ props, (∀ key, dHasKey d key = true → dHasKey props key = false) →
        _nvlist_to_dict es props = .ok (dAppend props d)
  | .nil, _ =>
    ⟨.nil, 0, rfl, fun props _ => by simp [_nvlist_to_dict, dAppend_nil]⟩
  | .cons k v rest, h => by
    simp only [goodDict, Bool.and_eq_true, Bool.not_eq_true'] at h
    obtain ⟨⟨hv, hrest⟩, hk⟩ := h
    obtain ⟨nv, n, henc, hinfo, hconv⟩ := rt_val v hv k
    obtain ⟨es, m, hencr, hdecr⟩ := rt_dict rest hrest
    refine ⟨.cons k nv es, n + m, ?_, ?_⟩
    · simp [_dict_to_nvlist, henc, hencr]
    · intro props hdisj
      have hkprops : dHasKey props k = false := hdisj k (by simp [dHasKey])
      have hstep : _nvlist_to_dict (NvList.cons k nv es) props
          = _nvlist_to_dict es (dictSet props k v) := by
        simp [_nvlist_to_dict, hinfo, hconv]
      rw [hstep, dictSet_fresh props k v hkprops]
      have hdisj' : ∀ key, dHasKey rest key = true →
          dHasKey (dAppend props (.cons k v .nil)) key = false := by
        intro key hkey
        have h1 : dHasKey props key = false :=
          hdisj key (by simp [dHasKey, hkey])
        have h2 : (k == key) = false := by
          cases hbk : k == key with
          | false => rfl
          | true => exact absurd hkey (by rw [← eq_of_beq hbk, hk]; simp)
        rw [dHasKey_append]
        simp [h1, dHasKey, h2]
      rw [hdecr (dAppend props (.cons k v .nil)) hdisj', dAppend_assoc]
      rfl

theorem rt_val : (v : PyVal) → goodVal v = true → (k : String) →
    ∃ nv n, encodeValue k v = .ok (nv, n) ∧
      (_type_info (typeidOf nv)).isSome = true ∧ convertNv nv = .ok v
  | .pynone, _, _ => ⟨.boolean, 0, rfl, rfl, rfl⟩
  | .pybool b, _, _ => ⟨.booleanValue b, 0, rfl, rfl, rfl⟩
  | .pyint n, _, k => ⟨.intVal (keySuffix k) n, 0, rfl, typeinfo_intVal _ _, rfl⟩
  | .pystr s, _, _ => ⟨.strVal s, 0, rfl, rfl, rfl⟩
  | .nvint _ _, h, _ => by simp [goodVal] at h
  | .pylist a, h, k => by
    simp only [goodVal] at h
    obtain ⟨nv, n, henc, hinfo, hconv⟩ := rt_arr a h k
    exact ⟨nv, n, by simpa [encodeValue] using henc, hinfo, hconv⟩
  | .pydict d, h, k => by
    simp only [goodVal] at h
    obtain ⟨es, n, henc, hdec⟩ := rt_dict d h
    refine ⟨.nvl es, 1 + n, ?_, rfl, ?_⟩
    · simp [encodeValue, henc]
    · have hd := hdec .nil (fun key _ => rfl)
      simp [convertNv, hd, dAppend]

theorem rt_arr : (a : PyList) → goodArr a = true → (k : String) →
    ∃ nv n, _nvlist_add_array k a = .ok (nv, n) ∧
      (_type_info (typeidOf nv)).isSome = true ∧ convertNv nv = .ok (.pylist a)
  | .nil, h, _ => by simp [goodArr] at h
  | .cons (.pybool b) rest, h, k => by
    simp only [goodArr, goodElem, Bool.true_and] at h
    refine ⟨.booleanArray (b :: asBoolList rest), 0, ?_, rfl, ?_⟩
    · simp [_nvlist_add_array, checkArray_of_goodRest _ _ h]
    · simp [convertNv, boolsToPyList, bools_rt b rest h]
  | .cons (.pyint n) rest, h, k => by
    simp only [goodArr, goodElem, Bool.true_and] at h
    refine ⟨.intArray (keySuffix k) (n :: asIntList rest), 0, ?_,
      typeinfo_intArray _ _, ?_⟩
    · simp [_nvlist_add_array, checkArray_of_goodRest _ _ h]
    · simp [convertNv, intsToPyList, ints_rt n rest h]
  | .cons (.pystr s) rest, h, k => by
    simp only [goodArr, goodElem, Bool.true_and] at h
    refine ⟨.strArray (s :: asStrList rest), listLen rest + 1, ?_, rfl, ?_⟩
    · simp [_nvlist_add_array, checkArray_of_goodRest _ _ h]
    · simp [convertNv, strsToPyList, strs_rt s rest h]
  | .cons (.pydict d) rest, h, k => by
    simp only [goodArr, goodElem, Bool.and_eq_true] at h
    obtain ⟨hd, hrest⟩ := h
    obtain ⟨es, n, henc, hdec⟩ := rt_dict d hd
    obtain ⟨ls, m, hencr, hdecr⟩ := rt_darr rest (allGoodDicts_of_goodRest d rest hrest)
    refine ⟨.nvlArray (.cons es ls), 1 + n + m, ?_, rfl, ?_⟩
    · simp [_nvlist_add_array, checkArray_of_goodRest _ _ hrest, henc, hencr]
    · have hd0 := hdec .nil (fun key _ => rfl)
      simp [convertNv, decodeNvlArray, hd0, hdecr, dAppend]
  | .cons .pynone _, h, _ => by simp [goodArr, goodElem] at h
  | .cons (.pylist _) _, h, _ => by simp [goodArr, goodElem] at h
  | .cons (.nvint _ _) _, h, _ => by simp [goodArr, goodElem] at h

theorem rt_darr : (a : PyList) → allGoodDicts a = true →
    ∃ ls n, encodeDictArray a = .ok (ls, n) ∧ decodeNvlArray ls = .ok a
  | .nil, _ => ⟨.nil, 0, rfl, rfl⟩
  | .cons (.pydict d) rest, h => by
    simp only [allGoodDicts, Bool.and_eq_true] at h
    obtain ⟨es, n, henc, hdec⟩ := rt_dict d h.1
    obtain ⟨ls, m, hencr, hdecr⟩ := rt_darr rest h.2
    refine ⟨.cons es ls, 1 + n + m, ?_, ?_⟩
    · simp [encodeDictArray, henc, hencr]
    · have hd0 := hdec .nil (fun key _ => rfl)
      simp [decodeNvlArray, hd0, hdecr, dAppend]
  | .cons .pynone _, h => by simp [allGoodDicts] at h
  | .cons (.pybool _) _, h => by simp [allGoodDicts] at h
  | .cons (.pyint _) _, h => by simp [allGoodDicts] at h
  | .cons (.pystr _) _, h => by simp [allGoodDicts] at h
  | .cons (.nvint _ _) _, h => by simp [allGoodDicts] at h
  | .cons (.pylist _) _, h => by simp [allGoodDicts] at h

end

/- Further helper lemmas for the claim theorems. -/

theorem nvlist_to_dict_append : (xs ys : NvList) → (props : PyDict) →
    _nvlist_to_dict (nvAppend xs ys) props =
      (match _nvlist_to_dict xs props with
       | .ok q => _nvlist_to_dict ys q
       | .error e => .error e)
  | .nil, _, _ => rfl
  | .cons name v rest, ys, props => by
    by_cases hinfo : (_type_info (typeidOf v)).isSome = true
    · cases hconv : convertNv v with
      | error e => simp [nvAppend, _nvlist_to_dict, hinfo, hconv]
      | ok pv =>
        simp [nvAppend, _nvlist_to_dict, hinfo, hconv,
          nvlist_to_dict_append rest ys (dictSet props name pv)]
    · simp [nvAppend, _nvlist_to_dict, hinfo]

theorem checkArray_bools (b : Bool) : (bs : List Bool) →
    checkArray (.pybool b) (boolsToPyList bs) = none
  | [] => rfl
  | _ :: rest => by
    simp [boolsToPyList, checkArray, isIntegral, checkArray_bools b rest]

theorem asBoolList_bools : (bs : List Bool) →
    asBoolList (boolsToPyList bs) = bs
  | [] => rfl
  | _ :: rest => by
    simp [boolsToPyList, asBoolList, asBoolT, asBoolList_bools rest]

/-- An element of `rest` whose type name `t` is among bool/str/dict can
survive the validation loop only if it rode the Integral exception (then
both it and the specimen are booleans) or matches the specimen's type. -/
theorem pass_of_checkArray_none (s : PyVal) : (rest : PyList) → (t : String) →
    checkArray s rest = none → hasType rest t = true →
    (t = "bool" ∨ t = "str" ∨ t = "dict") →
    (isIntegral s = true ∧ t = "bool") ∨ t = typeName s
  | .nil, t, _, hht, _ => by simp [hasType] at hht
  | .cons x r, t, hchk, hht, hbsd => by
    by_cases hint : (isIntegral s && isIntegral x) = true
    · have hrec : checkArray s r = none := by
        simpa [checkArray, hint] using hchk
      simp only [hasType, Bool.or_eq_true] at hht
      rcases hht with hx | hr
      · obtain ⟨hsint, hxint⟩ := Bool.and_eq_true .. |>.mp hint
        have hxt : typeName x = t := by simpa using hx
        refine Or.inl ⟨hsint, ?_⟩
        rcases isIntegral_typeName x hxint with hi | hb
        · rw [hxt] at hi
          rcases hbsd with h | h | h <;>
            exact absurd (hi.symm.trans h) (by decide)
        · rw [hxt] at hb; exact hb
      · exact pass_of_checkArray_none s r t hrec hr hbsd
    · by_cases hsame : sameType x s = true
      · have hrec : checkArray s r = none := by
          simpa [checkArray, hint, hsame] using hchk
        simp only [hasType, Bool.or_eq_true] at hht
        rcases hht with hx | hr
        · have hxt : typeName x = t := by simpa using hx
          have hxs : typeName x = typeName s := by simpa [sameType] using hsame
          exact Or.inr (hxt ▸ hxs)
        · exact pass_of_checkArray_none s r t hrec hr hbsd
      · exfalso
        have hsf : sameType x s = false := by
          cases hcv : sameType x s
          · rfl
          · exact absurd hcv hsame
        have : checkArray s (.cons x r) =
            some (typeName s, typeName x) := by
          simp [checkArray, hint, hsf]
        rw [this] at hchk
        exact Option.noConfusion hchk

/- Claim theorems. -/

/-- Claim C1, counterexample: the record with the single pair
("a", uint8-tagged 3) is built from the section 3 grammar, but encoding it
and decoding the result yields the record with the single pair
("a", plain 3), which is not equal to the original as a set of (key,
value) pairs: the explicit width tag is erased by decode (every integer
tag converts with `int`, source lines 94-101). -/
theorem c1_tagged_int_breaks_roundtrip :
    _dict_to_nvlist (.cons "a" (.nvint .uint8 3) .nil) =
      .ok (.cons "a" (.intVal .uint8 3) .nil, 0) ∧
    _nvlist_to_dict (.cons "a" (.intVal .uint8 3) .nil) .nil =
      .ok (.cons "a" (.pyint 3) .nil) ∧
    PyDict.cons "a" (.pyint 3) .nil ≠ PyDict.cons "a" (.nvint .uint8 3) .nil :=
  ⟨rfl, rfl, fun h => by
    injection h with _ h2 _
    exact PyVal.noConfusion h2⟩

/-- Claim C1, amended: for every record of the section 3 grammar that
contains no explicitly width-tagged integer values (arrays non-empty and
homogeneous with elements among Bool, String, plain Integer and Record;
keys unique at each level), decoding the container produced by encoding
the record yields exactly the original record, entry for entry (which
implies equality as a set of (key, value) pairs; array element order is
preserved). -/
theorem c1_roundtrip (d : PyDict) (h : goodDict d = true) :
    ∃ es n, _dict_to_nvlist d = .ok (es, n) ∧ _nvlist_to_dict es .nil = .ok d := by
  obtain ⟨es, n, henc, hdec⟩ := rt_dict d h
  exact ⟨es, n, henc, by simpa [dAppend] using hdec .nil (fun key _ => rfl)⟩

/-- Claim C1, witness: the amended round trip applied to a concrete record
with an integer, a string array, and a nested record. -/
theorem c1_roundtrip_witness :
    ∃ es n,
      _dict_to_nvlist (.cons "a" (.pyint 1)
        (.cons "b" (.pylist (.cons (.pystr "x") (.cons (.pystr "y") .nil)))
          (.cons "c" (.pydict (.cons "x" (.pyint 1) .nil)) .nil))) = .ok (es, n) ∧
      _nvlist_to_dict es .nil = .ok
        (.cons "a" (.pyint 1)
          (.cons "b" (.pylist (.cons (.pystr "x") (.cons (.pystr "y") .nil)))
            (.cons "c" (.pydict (.cons "x" (.pyint 1) .nil)) .nil))) :=
  c1_roundtrip _ rfl

/-- Claim C2, counterexample: the array mixing the plain integer 3 with
the width-tagged uint8(3) is rejected with a TypeError, not accepted: the
specimen is `numbers.Integral` but the NvInteger element is not, so the
validation loop (source lines 131-139) falls through to the exact type
comparison, which fails. -/
theorem c2_mixed_plain_and_tagged_rejected :
    _nvlist_add_array "a" (.cons (.pyint 3) (.cons (.nvint .uint8 3) .nil)) =
      .error (.typeError
        "Array has elements of different types: int and NvInteger", 0) :=
  rfl

/-- Claim C2, amended: for an array whose specimen is a plain integer,
any mixture of plain `numbers.Integral` elements (ints and bools) among
the remaining elements is accepted, and the array is wire-encoded using
only the width resolved from the specimen and the key (key-name table,
default unsigned 64); but an explicitly width-tagged NvInteger element
mixed in is rejected with a TypeError, because the interchangeability
exception covers only values satisfying `isinstance(_, numbers.Integral)`. -/
theorem c2_plain_integral_mix_accepted (k : String) (n : Int) (rest : PyList)
    (h : allIntegral rest = true) :
    _nvlist_add_array k (.cons (.pyint n) rest) =
      .ok (.intArray (keySuffix k) (n :: asIntList rest), 0) := by
  simp [_nvlist_add_array, checkArray_of_allIntegral (.pyint n) rfl rest h]

/-- Claim C2, witness: a plain-integer specimen with a bool and another
int among the elements encodes as a uint64 array. -/
theorem c2_plain_integral_mix_accepted_witness :
    _nvlist_add_array "x"
        (.cons (.pyint 3) (.cons (.pybool true) (.cons (.pyint 5) .nil))) =
      .ok (.intArray .uint64 [3, 1, 5], 0) :=
  c2_plain_integral_mix_accepted "x" 3 _ rfl

/-- Claim C3: any array containing two elements of different concrete
types among Bool, String and Record is rejected by `_nvlist_add_array`
with the heterogeneous-array TypeError; the Integral-interchangeability
exception never lets such a pair through. -/
theorem c3_nonint_mixed_array_rejected (k t1 t2 : String) (a : PyList)
    (h1 : t1 = "bool" ∨ t1 = "str" ∨ t1 = "dict")
    (h2 : t2 = "bool" ∨ t2 = "str" ∨ t2 = "dict")
    (hne : t1 ≠ t2)
    (m1 : hasType a t1 = true) (m2 : hasType a t2 = true) :
    ∃ s1 s2, _nvlist_add_array k a = .error
      (.typeError ("Array has elements of different types: " ++ s1 ++
        " and " ++ s2), 0) := by
  cases a with
  | nil => simp [hasType] at m1
  | cons s rest =>
    rcases hchk : checkArray s rest with _ | p
    · exfalso
      simp only [hasType, Bool.or_eq_true] at m1 m2
      have d1 : (isIntegral s = true ∧ t1 = "bool") ∨ t1 = typeName s := by
        rcases m1 with hx | hr
        · have hx' : typeName s = t1 := by simpa using hx
          exact Or.inr hx'.symm
        · exact pass_of_checkArray_none s rest t1 hchk hr h1
      have d2 : (isIntegral s = true ∧ t2 = "bool") ∨ t2 = typeName s := by
        rcases m2 with hx | hr
        · have hx' : typeName s = t2 := by simpa using hx
          exact Or.inr hx'.symm
        · exact pass_of_checkArray_none s rest t2 hchk hr h2
      rcases d1 with ⟨hsi, hb1⟩ | he1
      · rcases d2 with ⟨_, hb2⟩ | he2
        · exact hne (hb1.trans hb2.symm)
        · rcases isIntegral_typeName s hsi with hi | hb
          · rw [he2, hi] at h2
            rcases h2 with h | h | h <;> exact absurd h (by decide)
          · exact hne (hb1.trans (he2.trans hb).symm)
      · rcases d2 with ⟨hsi, hb2⟩ | he2
        · rcases isIntegral_typeName s hsi with hi | hb
          · rw [he1, hi] at h1
            rcases h1 with h | h | h <;> exact absurd h (by decide)
          · exact hne ((he1.trans hb).trans hb2.symm)
        · exact hne (he1.trans he2.symm)
    · obtain ⟨s1, s2⟩ := p
      refine ⟨s1, s2, ?_⟩
      cases s <;> simp [_nvlist_add_array, hchk]

/-- Claim C3, witness: the two-element array [str "x", bool true] is
rejected. -/
theorem c3_nonint_mixed_array_rejected_witness :
    ∃ s1 s2, _nvlist_add_array "k"
        (.cons (.pystr "x") (.cons (.pybool true) .nil)) = .error
      (.typeError ("Array has elements of different types: " ++ s1 ++
        " and " ++ s2), 0) :=
  c3_nonint_mixed_array_rejected "k" "str" "bool" _
    (Or.inr (Or.inl rfl)) (Or.inl rfl) (by decide) rfl rfl

/-- Claim C4: whenever the validation loop detects an element whose type
differs from the specimen's outside the Integral exception (that is,
`checkArray` returns an offending pair of type names), `_nvlist_add_array`
raises the heterogeneous-array TypeError whose message names both
offending types, with its allocation counter at zero — the error is raised
before any allocation — and it returns no entry, so the caller's container
is unchanged. -/
theorem c4_mismatch_raised_before_alloc (k : String) (specimen : PyVal)
    (rest : PyList) (t1 t2 : String)
    (h : checkArray specimen rest = some (t1, t2)) :
    _nvlist_add_array k (.cons specimen rest) =
      .error (.typeError ("Array has elements of different types: " ++ t1 ++
        " and " ++ t2), 0) := by
  cases specimen <;> simp [_nvlist_add_array, h]

/-- Claim C4, witness: a String specimen with a Bool second element (the
spec's own example) raises the TypeError naming "str" and "bool" with zero
allocations performed. -/
theorem c4_mismatch_raised_before_alloc_witness :
    _nvlist_add_array "k" (.cons (.pystr "a") (.cons (.pybool true) .nil)) =
      .error (.typeError
        "Array has elements of different types: str and bool", 0) :=
  c4_mismatch_raised_before_alloc "k" (.pystr "a") (.cons (.pybool true) .nil)
    "str" "bool" rfl

/-- Claim C5: encoding a zero-length array raises an error (the IndexError
from `array[0]`, source line 129) with no allocation performed, both from
`_nvlist_add_array` directly and through a record containing the empty
list — the key is not silently omitted, the whole encode aborts. -/
theorem c5_empty_array_error (k : String) :
    _nvlist_add_array k .nil =
      .error (.indexError "list index out of range", 0) ∧
    _dict_to_nvlist (.cons k (.pylist .nil) .nil) =
      .error (.indexError "list index out of range", 0) :=
  ⟨rfl, rfl⟩

/-- Claim C6: a plain (untagged) integer scalar gets its wire width from
the key-name table — "rewind-request" selects unsigned 32-bit, any key not
in the table selects unsigned 64-bit — and an explicit width tag on an
NvInteger value takes precedence over the table for any key. -/
theorem c6_key_width_table (n : Int) (w : IntSuffix) (k : String)
    (h : _prop_name_to_type_str.lookup k = none) :
    encodeValue "rewind-request" (.pyint n) = .ok (.intVal .uint32 n, 0) ∧
    encodeValue k (.pyint n) = .ok (.intVal .uint64 n, 0) ∧
    encodeValue k (.nvint w n) = .ok (.intVal w n, 0) ∧
    encodeValue "rewind-request" (.nvint w n) = .ok (.intVal w n, 0) := by
  refine ⟨rfl, ?_, rfl, rfl⟩
  simp [encodeValue, keySuffix, h]

/-- Claim C6, witness: the table at the concrete keys "rewind-request"
and "anything-else" with value 5, and the tag uint8 overriding both. -/
theorem c6_key_width_table_witness :
    encodeValue "rewind-request" (.pyint 5) = .ok (.intVal .uint32 5, 0) ∧
    encodeValue "anything-else" (.pyint 5) = .ok (.intVal .uint64 5, 0) ∧
    encodeValue "anything-else" (.nvint .uint8 5) = .ok (.intVal .uint8 5, 0) ∧
    encodeValue "rewind-request" (.nvint .uint8 5) = .ok (.intVal .uint8 5, 0) :=
  c6_key_width_table 5 .uint8 "anything-else" rfl

/-- Claim C7: None encodes as the presence-only boolean entry (source line
228) and a plain boolean-only tag decodes back to None (source lines
200-201), while Bool True encodes as a boolean-value entry with an
explicit payload (line 226) and decodes back to True; the two round-trip
to distinct values. -/
theorem c7_absent_vs_bool_roundtrip (k : String) :
    encodeValue k .pynone = .ok (.boolean, 0) ∧
    _nvlist_to_dict (.cons k .boolean .nil) .nil =
      .ok (.cons k .pynone .nil) ∧
    encodeValue k (.pybool true) = .ok (.booleanValue true, 0) ∧
    _nvlist_to_dict (.cons k (.booleanValue true) .nil) .nil =
      .ok (.cons k (.pybool true) .nil) ∧
    PyVal.pynone ≠ PyVal.pybool true :=
  ⟨rfl, rfl, rfl, rfl, fun h => PyVal.noConfusion h⟩

/-- Claim C8: if an entry in the container carries a tag outside the
fixed set recognised by `_type_info`, the decode aborts at that entry with
the KeyError naming the tag: entries before it are converted, the result
is an error (the field is not silently dropped), and no entry after the
offending one contributes — the result does not depend on `post`. -/
theorem c8_unknown_tag_aborts (pre : NvList) (props acc : PyDict) (k : String)
    (t : Nat) (post : NvList)
    (ht : _type_info t = none)
    (hpre : _nvlist_to_dict pre props = .ok acc) :
    _nvlist_to_dict (nvAppend pre (.cons k (.unknown t) post)) props =
      .error (.keyError t, acc) := by
  rw [nvlist_to_dict_append, hpre]
  simp [_nvlist_to_dict, typeidOf, ht]

/-- Claim C8, witness: decoding ["a" string, "b" with unrecognised tag 27
(DATA_TYPE_DOUBLE), "c" string] aborts at "b" having converted only "a". -/
theorem c8_unknown_tag_aborts_witness :
    _nvlist_to_dict (nvAppend (.cons "a" (.strVal "v") .nil)
        (.cons "b" (.unknown 27) (.cons "c" (.strVal "w") .nil))) .nil =
      .error (.keyError 27, .cons "a" (.pystr "v") .nil) :=
  c8_unknown_tag_aborts (.cons "a" (.strVal "v") .nil) .nil
    (.cons "a" (.pystr "v") .nil) "b" 27 (.cons "c" (.strVal "w") .nil) rfl rfl

/-- Claim C9: if the body of `nvlist_out` raises, the caller-supplied
record is returned unchanged (neither cleared nor repopulated: lines 80-81
are skipped), the container filled into the slot is freed exactly once
when non-NULL and not at all when NULL (the `finally` of lines 82-84), and
the exception propagates. -/
theorem c9_out_guard_exception_safety (props : PyDict) (slot : Option NvList) :
    (nvlist_out props (.raised slot)).props = props ∧
    (nvlist_out props (.raised slot)).frees = (if slot.isSome then 1 else 0) ∧
    (nvlist_out props (.raised slot)).propagated = true :=
  ⟨rfl, rfl, rfl⟩

/-- Claim C10: a Bool value always encodes as a boolean-value entry
regardless of its key: the bool branch (source line 225) is tested before
the Integral branch (line 229), so even though a Python bool satisfies
`isinstance(_, numbers.Integral)`, a Bool under the table key "type"
(which maps to uint32) still yields a boolean-value entry, and a
bool-specimen array yields a boolean array (lines 159-160 before 161). -/
theorem c10_bool_tested_before_integer (k : String) (b : Bool) (bs : List Bool) :
    encodeValue k (.pybool b) = .ok (.booleanValue b, 0) ∧
    isIntegral (.pybool b) = true ∧
    encodeValue "type" (.pybool true) = .ok (.booleanValue true, 0) ∧
    _prop_name_to_type_str.lookup "type" = some .uint32 ∧
    _nvlist_add_array k (.cons (.pybool b) (boolsToPyList bs)) =
      .ok (.booleanArray (b :: bs), 0) := by
  refine ⟨rfl, rfl, rfl, rfl, ?_⟩
  simp [_nvlist_add_array, checkArray_bools, asBoolList_bools]

end PyZfsNvlist
